import Mathlib

/-!
Shallow embedding of the security core of the medical-diagnostic-agent
backend: the rate limiter (src/backend/app/core/rate_limit.py) and the
token authority (src/backend/app/core/auth.py).

Modelling conventions: clock readings (Python `time.time()`) and the
integer configuration values are modelled as ℤ, so `Python int(x)`
(truncation) is the identity on the block arithmetic; fallible values
are `Option`; the mutable module state is passed explicitly and every
stateful operation returns its result paired with the successor state.
-/

namespace MedAgent

/-! ### Rate limiting: `MemoryBackend` (rate_limit.py lines 42-75) -/

/-- State of `MemoryBackend`: `requests` is the `defaultdict(list)` of
request timestamps per key (absent key = empty list), `blocked` maps a
key to the time its block expires (absent key = `none`). -/
structure MemState where
  requests : String → List ℤ
  blocked : String → Option ℤ

/-- The state of a freshly constructed `MemoryBackend`. -/
def MemState.init : MemState := ⟨fun _ => [], fun _ => none⟩

namespace MemoryBackend

/-- `MemoryBackend._cleanup`: keep only the timestamps `req` with
`req > cutoff` where `cutoff = now - window_seconds`. -/
def cleanup (st : MemState) (key : String) (window_seconds now : ℤ) : MemState :=
  { st with requests := fun k =>
      if k = key then (st.requests key).filter (fun req => decide (now - window_seconds < req))
      else st.requests k }

/-- `MemoryBackend.is_blocked`: a key is blocked when its block entry
has strictly positive remaining time; an expired entry is deleted
lazily.  Returns `((blocked, seconds_remaining), successor state)`. -/
def is_blocked (st : MemState) (key : String) (now : ℤ) : (Bool × ℤ) × MemState :=
  match st.blocked key with
  | some untilT =>
      if 0 < untilT - now then ((true, untilT - now), st)
      else ((false, 0), { st with blocked := fun k => if k = key then none else st.blocked k })
  | none => ((false, 0), st)

/-- `MemoryBackend.block`: set the block expiry of `key` to
`now + duration_seconds`. -/
def block (st : MemState) (key : String) (duration_seconds now : ℤ) : MemState :=
  { st with blocked := fun k =>
      if k = key then some (now + duration_seconds) else st.blocked k }

/-- `MemoryBackend.check`: consult the block state, then prune the
window, then either reject (quota full) or record `now` and admit. -/
def check (st : MemState) (key : String) (max_requests window_seconds now : ℤ) :
    (Bool × ℤ × ℤ) × MemState :=
  let ib := is_blocked st key now
  if ib.1.1 then ((false, 0, ib.1.2), ib.2)
  else
    let st2 := cleanup ib.2 key window_seconds now
    let current := (st2.requests key).length
    if max_requests ≤ (current : ℤ) then ((false, 0, window_seconds), st2)
    else ((true, max_requests - current - 1, 0),
      { st2 with requests := fun k =>
          if k = key then st2.requests key ++ [now] else st2.requests k })

end MemoryBackend

/-! ### Rate limiting: `RedisBackend` (rate_limit.py lines 78-158)

The Redis store is modelled symbolically: the sorted set of a key is a
duplicate-free list of scores (each member string is `str(now)`, so a
member is identified with its score), and `blocks` maps a key to the
expiry time of its `block:{key}` marker. -/

structure RedisState where
  zsets : String → List ℤ
  blocks : String → Option ℤ

/-- A fresh Redis store: no sorted sets, no block markers. -/
def RedisState.init : RedisState := ⟨fun _ => [], fun _ => none⟩

namespace RedisBackend

/-- Redis `ZADD key {str(now): now}`: insert the member unless already
present. -/
def zadd (z : List ℤ) (s : ℤ) : List ℤ := if s ∈ z then z else z ++ [s]

/-- Redis `ZREMRANGEBYSCORE key 0 window_start`: drop every member with
score in the closed interval `[0, window_start]`. -/
def zremrange (z : List ℤ) (lo hi : ℤ) : List ℤ :=
  z.filter (fun s => decide (¬ (lo ≤ s ∧ s ≤ hi)))

/-- Redis `ZREM key str(now)`: remove the member. -/
def zrem (z : List ℤ) (s : ℤ) : List ℤ := z.filter (fun x => decide (x ≠ s))

/-- `RedisBackend.is_blocked`: `TTL block:{key}` is positive exactly
when the marker exists and has not expired. -/
def is_blocked (st : RedisState) (key : String) (now : ℤ) : Bool × ℤ :=
  match st.blocks key with
  | some e => if 0 < e - now then (true, e - now) else (false, 0)
  | none => (false, 0)

/-- `RedisBackend.block`: `SETEX block:{key} duration 1`. -/
def block (st : RedisState) (key : String) (duration_seconds now : ℤ) : RedisState :=
  { st with blocks := fun k =>
      if k = key then some (now + duration_seconds) else st.blocks k }

/-- `RedisBackend.check`, traced from the source: the first pipeline
prunes, counts, and tentatively adds `now`; when the pre-add count is at
least `max_requests` a second pipeline repeats this and then either
retracts the added member and rejects, or admits.  When the pre-add
count is below `max_requests` the Python function reaches its end
without a `return` statement and yields `None`, modelled as `none` here
(the `expire` commands, which only schedule key eviction, do not change
the modelled state within a call). -/
def check (st : RedisState) (key : String) (max_requests window_seconds now : ℤ) :
    Option (Bool × ℤ × ℤ) × RedisState :=
  let ib := is_blocked st key now
  if ib.1 then (some (false, 0, ib.2), st)
  else
    let window_start := now - window_seconds
    let z1 := zremrange (st.zsets key) 0 window_start
    let current_count := z1.length
    let z2 := zadd z1 now
    let st1 := { st with zsets := fun k => if k = key then z2 else st.zsets k }
    if max_requests ≤ (current_count : ℤ) then
      let z3 := zremrange z2 0 window_start
      let count := z3.length
      let z4 := zadd z3 now
      let st2 := { st1 with zsets := fun k => if k = key then z4 else st1.zsets k }
      if max_requests ≤ (count : ℤ) then
        (some (false, 0, window_seconds),
         { st2 with zsets := fun k => if k = key then zrem z4 now else st2.zsets k })
      else (some (true, max_requests - count - 1, 0), st2)
    else (none, st1)

end RedisBackend

/-! ### Rate limiting: the façade (rate_limit.py lines 161-194),
instantiated with the in-memory backend. -/

namespace RateLimiter

/-- `RateLimiter.check_rate_limit`: delegate to the backend `check`;
when denied with a positive `block_duration` and the key is not already
blocked, install a block and answer with the full block duration. -/
def check_rate_limit (st : MemState) (key : String)
    (max_requests window_seconds block_duration now : ℤ) :
    (Bool × ℤ × ℤ) × MemState :=
  let r := MemoryBackend.check st key max_requests window_seconds now
  if r.1.1 = false ∧ 0 < block_duration then
    let ib := MemoryBackend.is_blocked r.2 key now
    if ib.1.1 = false then
      ((false, 0, block_duration), MemoryBackend.block ib.2 key block_duration now)
    else (r.1, ib.2)
  else r

end RateLimiter

/-- A sequence of `check` calls on one key, threading the backend state;
returns the list of decision triples. -/
def checkSeq (key : String) (max_requests window_seconds : ℤ) :
    MemState → List ℤ → List (Bool × ℤ × ℤ)
  | _, [] => []
  | st, t :: ts =>
      let r := MemoryBackend.check st key max_requests window_seconds t
      r.1 :: checkSeq key max_requests window_seconds r.2 ts

/-- One backend operation on a fixed key at a given time, for stating
frame properties about sequences of calls. -/
inductive RLOp where
  | check (max_requests window_seconds t : ℤ)
  | block (duration_seconds t : ℤ)

/-- Apply one operation to the in-memory backend state. -/
def applyOp (key : String) (st : MemState) : RLOp → MemState
  | RLOp.check m w t => (MemoryBackend.check st key m w t).2
  | RLOp.block d t => MemoryBackend.block st key d t

/-- The decision triple of `MemoryBackend.check` on an unblocked key,
as a function of the timestamp list alone. -/
def checkUnblockedFst (l : List ℤ) (max_requests window_seconds now : ℤ) :
    Bool × ℤ × ℤ :=
  let surv := l.filter (fun req => decide (now - window_seconds < req))
  if max_requests ≤ (surv.length : ℤ) then (false, 0, window_seconds)
  else (true, max_requests - surv.length - 1, 0)

/-! ### Token authority (auth.py)

JWT handling is modelled symbolically: a token is identified with its
decoded payload together with the secret that signed it, and
`jwt.decode(token, secret, algorithms=[ALGORITHM])` succeeds exactly
when the signing secret matches and the `exp` claim lies in the future
(PyJWT validates `exp` and raises otherwise, caught as `None`). -/

/-- `SECRET_KEY` with its default value (no environment override). -/
def SECRET_KEY : String := "dev-secret-key-change-in-production"

/-- `REFRESH_SECRET_KEY`: derived from `SECRET_KEY` by default. -/
def REFRESH_SECRET_KEY : String := SECRET_KEY ++ "-refresh"

/-- `ACCESS_TOKEN_EXPIRE_MINUTES` default. -/
def ACCESS_TOKEN_EXPIRE_MINUTES : ℤ := 15

/-- `REFRESH_TOKEN_EXPIRE_DAYS` default. -/
def REFRESH_TOKEN_EXPIRE_DAYS : ℤ := 7

/-- A signed credential: the payload claims written by the creators
(`username`, `role`, `type`, `exp`, `iat`, `jti`) plus the secret the
blob was signed with.  Two tokens are the same string exactly when all
components agree. -/
structure Token where
  username : Option String
  role : Option String
  typ : Option String
  exp : ℤ
  iat : ℤ
  jti : String
  secret : String
deriving DecidableEq

/-- The mutable module state of auth.py: the `_revoked_tokens` set,
modelled as a duplicate-free list. -/
structure AuthState where
  revoked : List Token
deriving DecidableEq

/-- Empty revocation set, as at process start. -/
def AuthState.init : AuthState := ⟨[]⟩

/-- Symbolic `jwt.decode`: the signature verifies exactly when the
token was signed with `secret`, and the `exp` claim must be in the
future. -/
def jwtDecode (t : Token) (secret : String) (now : ℤ) : Option Token :=
  if t.secret = secret ∧ now < t.exp then some t else none

/-- `verify_token`: decode under the secret selected by `is_refresh`,
then reject revoked tokens. -/
def verify_token (t : Token) (is_refresh : Bool) (st : AuthState) (now : ℤ) : Option Token :=
  match jwtDecode t (if is_refresh then REFRESH_SECRET_KEY else SECRET_KEY) now with
  | none => none
  | some payload => if t ∈ st.revoked then none else some payload

/-- `revoke_token`: verify under the access secret, then under the
refresh secret; on success add the raw token to the revocation set and
return `true`, otherwise return `false`. -/
def revoke_token (t : Token) (st : AuthState) (now : ℤ) : Bool × AuthState :=
  match verify_token t false st now with
  | some _ => (true, ⟨st.revoked.insert t⟩)
  | none =>
      match verify_token t true st now with
      | some _ => (true, ⟨st.revoked.insert t⟩)
      | none => (false, st)

/-- `verify_refresh_token`: verify as refresh and additionally reject
any payload whose `type` claim is not `"refresh"`. -/
def verify_refresh_token (t : Token) (st : AuthState) (now : ℤ) : Option Token :=
  match verify_token t true st now with
  | none => none
  | some payload => if payload.typ ≠ some "refresh" then none else some payload

/-- `create_access_token`: payload `{username, role}` stamped with
`type="access"`, `iat=now`, `exp = now + expires_delta` (default 15
minutes), a caller-supplied `jti` standing for the random
`secrets.token_hex(16)`, signed with `SECRET_KEY`. -/
def create_access_token (username role : String) (expires_delta : Option ℤ)
    (now : ℤ) (jti : String) : Token :=
  { username := some username, role := some role, typ := some "access",
    exp := now + expires_delta.getD (15 * 60), iat := now, jti := jti,
    secret := SECRET_KEY }

/-- `create_refresh_token`: as `create_access_token` but
`type="refresh"`, default lifetime 7 days, signed with
`REFRESH_SECRET_KEY`. -/
def create_refresh_token (username role : String) (expires_delta : Option ℤ)
    (now : ℤ) (jti : String) : Token :=
  { username := some username, role := some role, typ := some "refresh",
    exp := now + expires_delta.getD (7 * 86400), iat := now, jti := jti,
    secret := REFRESH_SECRET_KEY }

/-- The `TokenPair` response model. -/
structure TokenPair where
  access_token : Token
  refresh_token : Token
  token_type : String
  expires_in : ℤ
deriving DecidableEq

/-- `create_token_pair`: compose both creators with the configured
lifetimes. -/
def create_token_pair (username role : String) (now : ℤ) (jtiA jtiR : String) : TokenPair :=
  { access_token := create_access_token username role
      (some (ACCESS_TOKEN_EXPIRE_MINUTES * 60)) now jtiA,
    refresh_token := create_refresh_token username role
      (some (REFRESH_TOKEN_EXPIRE_DAYS * 86400)) now jtiR,
    token_type := "bearer",
    expires_in := ACCESS_TOKEN_EXPIRE_MINUTES * 60 }

/-- `rotate_tokens`: verify the presented token under the refresh
secret; reject when the payload lacks a truthy `username` or `role`
(Python falsiness: absent or empty string); otherwise revoke the
presented token and issue a fresh pair for the same subject and role. -/
def rotate_tokens (refresh_token : Token) (st : AuthState) (now : ℤ)
    (jtiA jtiR : String) : Option TokenPair × AuthState :=
  match verify_token refresh_token true st now with
  | none => (none, st)
  | some payload =>
      match payload.username, payload.role with
      | some u, some r =>
          if u = "" ∨ r = "" then (none, st)
          else
            let rv := revoke_token refresh_token st now
            (some (create_token_pair u r now jtiA jtiR), rv.2)
      | _, _ => (none, st)

/-- Validity of a credential under one secret, before the revocation
check: it parses and signs correctly and is unexpired. -/
def validUnder (t : Token) (secret : String) (now : ℤ) : Prop :=
  t.secret = secret ∧ now < t.exp

instance (t : Token) (secret : String) (now : ℤ) : Decidable (validUnder t secret now) := by
  unfold validUnder; infer_instance

/-! ### Concrete sample values used in closed statements -/

/-- A valid access credential (unexpired at time `0`). -/
def tA : Token :=
  { username := some "alice", role := some "gp", typ := some "access",
    exp := 1000, iat := 0, jti := "j0", secret := SECRET_KEY }

/-- A credential carrying the claim `type="refresh"` but signed with the
access secret. -/
def tCrafted : Token :=
  { username := some "alice", role := some "gp", typ := some "refresh",
    exp := 1000, iat := 0, jti := "jx", secret := SECRET_KEY }

/-- A backend state holding one recorded timestamp, at time `0`, for key
`"a"`, and no blocks. -/
def stBoundary : MemState :=
  ⟨fun k => if k = "a" then [0] else [], fun _ => none⟩

/-- Unblocked case of the backend-contract sentence of the spec, read
literally: prune the timestamps *older than* `now - window_seconds`
(strictly older, so a timestamp exactly at the cutoff survives), then
reject or record-and-admit. -/
def claimSpecUnblocked (l : List ℤ) (max_requests window_seconds now : ℤ) : Bool × ℤ × ℤ :=
  let surv := l.filter (fun req => decide (now - window_seconds ≤ req))
  if max_requests ≤ (surv.length : ℤ) then (false, 0, window_seconds)
  else (true, max_requests - surv.length - 1, 0)

/-- Decision triple mandated by the backend-contract sentence of the
spec, read literally (blocked case, then `claimSpecUnblocked`). -/
def claimSpecCheck (st : MemState) (key : String) (max_requests window_seconds now : ℤ) :
    Bool × ℤ × ℤ :=
  match st.blocked key with
  | some e =>
      if 0 < e - now then (false, 0, e - now)
      else claimSpecUnblocked (st.requests key) max_requests window_seconds now
  | none => claimSpecUnblocked (st.requests key) max_requests window_seconds now

section RateLimitLemmas

/-- Evaluation of the decision triple of `MemoryBackend.check`: it
depends only on the block entry and the timestamp list of the key. -/
theorem check_fst_eval (st : MemState) (key : String) (m w now : ℤ) :
    (MemoryBackend.check st key m w now).1 =
      match st.blocked key with
      | some e =>
          if 0 < e - now then (false, 0, e - now)
          else checkUnblockedFst (st.requests key) m w now
      | none => checkUnblockedFst (st.requests key) m w now := by
  cases hb : st.blocked key with
  | none =>
      simp only [MemoryBackend.check, MemoryBackend.is_blocked, MemoryBackend.cleanup, hb,
        checkUnblockedFst]
      split_ifs <;> simp_all
  | some e =>
      by_cases hp : 0 < e - now <;>
        simp only [MemoryBackend.check, MemoryBackend.is_blocked, MemoryBackend.cleanup, hb, hp,
          checkUnblockedFst, if_true, if_false, ite_true, ite_false, Bool.false_eq_true] <;>
        split_ifs <;> simp_all

/-- The decision triple of a check depends only on the portion of the
state belonging to the checked key. -/
theorem check_fst_congr (st st' : MemState) (k : String) (m w now : ℤ)
    (h1 : st.requests k = st'.requests k) (h2 : st.blocked k = st'.blocked k) :
    (MemoryBackend.check st k m w now).1 = (MemoryBackend.check st' k m w now).1 := by
  rw [check_fst_eval, check_fst_eval, h1, h2]

/-- A single operation addressed to key `k1` does not change the
window or the block entry of any other key `k2`. -/
theorem applyOp_frame (k1 k2 : String) (h : k2 ≠ k1) (st : MemState) (op : RLOp) :
    (applyOp k1 st op).requests k2 = st.requests k2
    ∧ (applyOp k1 st op).blocked k2 = st.blocked k2 := by
  cases op with
  | block d t =>
      constructor <;> simp [applyOp, MemoryBackend.block, h]
  | check m w t =>
      cases hb : st.blocked k1 with
      | none =>
          constructor <;>
            (simp only [applyOp, MemoryBackend.check, MemoryBackend.is_blocked,
              MemoryBackend.cleanup, hb]; split_ifs <;> simp [h])
      | some e =>
          constructor <;>
            (simp only [applyOp, MemoryBackend.check, MemoryBackend.is_blocked,
              MemoryBackend.cleanup, hb]; split_ifs <;> simp [h])

/-- Frame property extended to an arbitrary sequence of operations on
key `k1`. -/
theorem foldl_applyOp_frame (k1 k2 : String) (h : k2 ≠ k1) (ops : List RLOp) (st : MemState) :
    (ops.foldl (applyOp k1) st).requests k2 = st.requests k2
    ∧ (ops.foldl (applyOp k1) st).blocked k2 = st.blocked k2 := by
  induction ops generalizing st with
  | nil => exact ⟨rfl, rfl⟩
  | cons op ops ih =>
      have h1 := applyOp_frame k1 k2 h st op
      have h2 := ih (applyOp k1 st op)
      simp only [List.foldl_cons]
      exact ⟨h2.1.trans h1.1, h2.2.trans h1.2⟩

/-- The two signing secrets of the reference configuration differ. -/
theorem secrets_distinct : SECRET_KEY ≠ REFRESH_SECRET_KEY := by decide

/-- The same fact in the other orientation. -/
theorem secrets_distinct' : REFRESH_SECRET_KEY ≠ SECRET_KEY := by decide

/-- A successful verification returns exactly the decoded token. -/
theorem verify_token_eq_some (t p : Token) (b : Bool) (st : AuthState) (now : ℤ)
    (h : verify_token t b st now = some p) : p = t := by
  unfold verify_token jwtDecode at h
  split_ifs at h <;> simp_all

/-- A token in the revocation set never verifies, under either kind. -/
theorem verify_token_revoked (t : Token) (b : Bool) (st : AuthState) (now : ℤ)
    (h : t ∈ st.revoked) : verify_token t b st now = none := by
  unfold verify_token jwtDecode
  split_ifs <;> simp_all

/-- Refresh verification of an unrevoked, unexpired token signed with
the refresh secret succeeds and returns the token. -/
theorem verify_token_refresh_some (t : Token) (st : AuthState) (now : ℤ)
    (hsec : t.secret = REFRESH_SECRET_KEY) (hexp : now < t.exp) (hfresh : t ∉ st.revoked) :
    verify_token t true st now = some t := by
  unfold verify_token jwtDecode
  rw [if_pos ⟨hsec, hexp⟩]
  simp [hfresh]

/-- Access verification of a token signed with the refresh secret fails
at the decode step. -/
theorem verify_token_access_of_refresh (t : Token) (st : AuthState) (now : ℤ)
    (hsec : t.secret = REFRESH_SECRET_KEY) :
    verify_token t false st now = none := by
  unfold verify_token jwtDecode
  rw [if_neg]
  rintro ⟨h1, -⟩
  exact secrets_distinct' (hsec.symm.trans h1)

/-- Revoking an unrevoked, unexpired refresh-signed token succeeds and
stores the raw token. -/
theorem revoke_token_refresh (t : Token) (st : AuthState) (now : ℤ)
    (hsec : t.secret = REFRESH_SECRET_KEY) (hexp : now < t.exp) (hfresh : t ∉ st.revoked) :
    revoke_token t st now = (true, ⟨st.revoked.insert t⟩) := by
  unfold revoke_token
  rw [verify_token_access_of_refresh t st now hsec,
    verify_token_refresh_some t st now hsec hexp hfresh]

/-- A successful rotation: verified as refresh with truthy subject and
role, the presented token is revoked and a fresh pair is issued. -/
theorem rotate_tokens_success (t : Token) (st : AuthState) (now : ℤ) (jA2 jR2 : String)
    (u r : String) (hsec : t.secret = REFRESH_SECRET_KEY) (hexp : now < t.exp)
    (hfresh : t ∉ st.revoked) (huname : t.username = some u) (hrole : t.role = some r)
    (hu : u ≠ "") (hr : r ≠ "") :
    rotate_tokens t st now jA2 jR2
      = (some (create_token_pair u r now jA2 jR2), ⟨st.revoked.insert t⟩) := by
  unfold rotate_tokens
  rw [verify_token_refresh_some t st now hsec hexp hfresh]
  simp only [huname, hrole]
  rw [if_neg (by simp [hu, hr]), revoke_token_refresh t st now hsec hexp hfresh]

end RateLimitLemmas

/-! ### The claims -/

/-- C1: the claim says every backend check returns a decision triple and
never returns a non-tuple value; the Redis backend violates this — on a
fresh, unblocked key with remaining quota (here `current_count = 0 < 5`)
the source function ends without a `return` statement, so the call
yields `None` instead of a triple. -/
theorem redis_check_allowed_path_no_tuple :
    (RedisBackend.check RedisState.init "k" 5 60 100).1 = none := by decide

/-- C2 counterexample: the claim prunes the timestamps *older than*
`now - window_seconds`, but the code drops a timestamp exactly
`window_seconds` old (filter keeps `req > cutoff`).  With one recorded
timestamp at `0`, `window_seconds = 60`, `max_requests = 1` and
`now = 60`, the code admits while the claim as stated mandates a
rejection. -/
theorem mem_check_prune_boundary_cex :
    (MemoryBackend.check stBoundary "a" 1 60 60).1 = (true, 0, 0)
    ∧ claimSpecCheck stBoundary "a" 1 60 60 = (false, 0, 60)
    ∧ (MemoryBackend.check stBoundary "a" 1 60 60).1 ≠ claimSpecCheck stBoundary "a" 1 60 60 := by
  decide

/-- C2 (amended): the in-memory backend check satisfies the contract
with pruning of every timestamp at or before `now - window_seconds`:
when the key is blocked it returns `(false, 0, seconds left)`; otherwise
if the surviving count reaches `max_requests` it rejects with
`(false, 0, window_seconds)` and does not record the attempt, else it
records `now` and returns `(true, max_requests - count - 1, 0)`. -/
theorem mem_check_contract (st : MemState) (key : String) (m w now : ℤ) :
    (∀ e, st.blocked key = some e → 0 < e - now →
      (MemoryBackend.check st key m w now).1 = (false, 0, e - now))
    ∧ ((∀ e, st.blocked key = some e → e - now ≤ 0) →
        ((m ≤ (((st.requests key).filter (fun req => decide (now - w < req))).length : ℤ) →
          (MemoryBackend.check st key m w now).1 = (false, 0, w)
          ∧ ((MemoryBackend.check st key m w now).2).requests key
              = (st.requests key).filter (fun req => decide (now - w < req)))
        ∧ ((((st.requests key).filter (fun req => decide (now - w < req))).length : ℤ) < m →
          (MemoryBackend.check st key m w now).1
              = (true, m - ((st.requests key).filter (fun req => decide (now - w < req))).length - 1, 0)
          ∧ ((MemoryBackend.check st key m w now).2).requests key
              = (st.requests key).filter (fun req => decide (now - w < req)) ++ [now]))) := by
  constructor
  · intro e he hpos
    simp only [MemoryBackend.check, MemoryBackend.is_blocked, he, hpos, if_true]
  · intro hnb
    cases hb : st.blocked key with
    | none =>
        constructor
        · intro hm
          constructor <;>
            (simp only [MemoryBackend.check, MemoryBackend.is_blocked, MemoryBackend.cleanup, hb]
             split_ifs <;> simp_all)
        · intro hm
          constructor <;>
            (simp only [MemoryBackend.check, MemoryBackend.is_blocked, MemoryBackend.cleanup, hb]
             split_ifs <;> simp_all <;> omega)
    | some e =>
        have hle : e - now ≤ 0 := hnb e hb
        constructor
        · intro hm
          constructor <;>
            (simp only [MemoryBackend.check, MemoryBackend.is_blocked, MemoryBackend.cleanup, hb]
             split_ifs <;> simp_all <;> omega)
        · intro hm
          constructor <;>
            (simp only [MemoryBackend.check, MemoryBackend.is_blocked, MemoryBackend.cleanup, hb]
             split_ifs <;> simp_all <;> omega)

/-- C2 witness: a fresh key with quota 5 admits and records the call. -/
theorem mem_check_contract_witness :
    (MemoryBackend.check MemState.init "a" 5 60 0).1
        = (true, (5:ℤ) - (((MemState.init.requests "a").filter
            (fun req => decide ((0:ℤ) - 60 < req))).length : ℤ) - 1, (0:ℤ))
    ∧ ((MemoryBackend.check MemState.init "a" 5 60 0).2).requests "a"
        = (MemState.init.requests "a").filter (fun req => decide ((0:ℤ) - 60 < req)) ++ [0] :=
  ((mem_check_contract MemState.init "a" 5 60 0).2 (by intro e he; cases he)).2 (by decide)

/-- C3 counterexample: the claim says revoking an already-revoked valid
credential still returns `true`; in the code the verification performed
by `revoke_token` includes the revocation check, so the second revoke
returns `false` (the set is left unchanged). -/
theorem revoke_revoked_returns_false_cex :
    (revoke_token tA AuthState.init 0).1 = true
    ∧ (revoke_token tA (revoke_token tA AuthState.init 0).2 0).1 = false
    ∧ (revoke_token tA (revoke_token tA AuthState.init 0).2 0).2
        = (revoke_token tA AuthState.init 0).2 := by decide

/-- C3 (amended): for a credential signing correctly and unexpired under
either secret and not yet revoked, `revoke_token` adds it to the
revocation set and returns `true`; for an already-revoked credential it
returns `false` and leaves the set unchanged (harmless); for a
credential valid under neither secret it returns `false` and leaves the
set unchanged. -/
theorem revoke_token_contract (t : Token) (st : AuthState) (now : ℤ) :
    ((validUnder t SECRET_KEY now ∨ validUnder t REFRESH_SECRET_KEY now) →
        t ∉ st.revoked → revoke_token t st now = (true, ⟨st.revoked.insert t⟩))
    ∧ (t ∈ st.revoked → revoke_token t st now = (false, st))
    ∧ (¬ validUnder t SECRET_KEY now → ¬ validUnder t REFRESH_SECRET_KEY now →
        revoke_token t st now = (false, st)) := by
  refine ⟨?_, ?_, ?_⟩
  · rintro (⟨hs, he⟩ | ⟨hs, he⟩) hmem
    · simp [revoke_token, verify_token, jwtDecode, hs, he, hmem]
    · rw [revoke_token_refresh t st now hs he hmem]
  · intro hmem
    simp [revoke_token, verify_token_revoked t false st now hmem,
      verify_token_revoked t true st now hmem]
  · intro h1 h2
    rw [validUnder, not_and_or] at h1 h2
    unfold revoke_token verify_token jwtDecode
    rcases h1 with h1 | h1 <;> rcases h2 with h2 | h2 <;> split_ifs <;> simp_all
      <;> omega

/-- C3 witness: the first revocation of a fresh valid credential
succeeds and stores the raw token. -/
theorem revoke_token_contract_witness :
    revoke_token tA AuthState.init 0 = (true, ⟨(AuthState.init).revoked.insert tA⟩) :=
  (revoke_token_contract tA AuthState.init 0).1 (Or.inl (by decide)) (by decide)

/-- C4 counterexample: a credential carrying `kind=refresh` but signed
with the access secret passes access-kind verification — `verify_token`
never inspects the `type` claim, so the mismatch is not rejected in the
access direction. -/
theorem access_verify_ignores_kind_cex :
    tCrafted.typ = some "refresh"
    ∧ verify_token tCrafted false AuthState.init 0 = some tCrafted := by decide

/-- C4 (amended): refresh-kind verification rejects any credential whose
`type` claim differs from `"refresh"`, and factory-created credentials
are cross-kind rejected in both directions because the two kinds use
distinct signing secrets; access-kind verification itself does not
inspect the `type` claim. -/
theorem kind_mismatch_rejection (t : Token) (st : AuthState) (now t0 : ℤ)
    (u r : String) (d : Option ℤ) (j : String) :
    (t.typ ≠ some "refresh" → verify_refresh_token t st now = none)
    ∧ verify_token (create_access_token u r d t0 j) true st now = none
    ∧ verify_token (create_refresh_token u r d t0 j) false st now = none := by
  refine ⟨?_, ?_, ?_⟩
  · intro ht
    cases hv : verify_token t true st now with
    | none => simp [verify_refresh_token, hv]
    | some p =>
        have hp := verify_token_eq_some t p true st now hv
        subst hp
        simp [verify_refresh_token, hv, ht]
  · simp [verify_token, jwtDecode, create_access_token, secrets_distinct]
  · simp [verify_token, jwtDecode, create_refresh_token, secrets_distinct']

/-- C4 witness: an access-kind credential fails refresh verification. -/
theorem kind_mismatch_rejection_witness :
    verify_refresh_token tA AuthState.init 0 = none :=
  (kind_mismatch_rejection tA AuthState.init 0 0 "u" "r" none "j").1 (by decide)

/-- C5 counterexample: with the empty-string subject (falsy in Python),
rotation of the refresh credential of a freshly created pair fails on
its very first call, so rotation does not succeed exactly once for
*every* subject and role. -/
theorem rotate_empty_subject_cex :
    (rotate_tokens ((create_token_pair "" "gp" 0 "a1" "r1").refresh_token)
        AuthState.init 0 "a2" "r2").1 = none := by decide

/-- C5 (amended): for every nonempty subject and role, rotating the
refresh credential of a freshly created (unrevoked, unexpired) pair
succeeds, yields a pair for the same subject and role (brand-new
whenever the fresh `jti` differs), and every further rotate call with
the same original refresh credential fails and changes nothing. -/
theorem rotate_refresh_one_time_use (u r : String) (hu : u ≠ "") (hr : r ≠ "")
    (st : AuthState) (t0 now : ℤ) (jA jR jA2 jR2 : String)
    (hfresh : (create_token_pair u r t0 jA jR).refresh_token ∉ st.revoked)
    (hexp : now < (create_token_pair u r t0 jA jR).refresh_token.exp) :
    (rotate_tokens ((create_token_pair u r t0 jA jR).refresh_token) st now jA2 jR2).1
        = some (create_token_pair u r now jA2 jR2)
    ∧ (∀ now2 jA3 jR3,
        rotate_tokens ((create_token_pair u r t0 jA jR).refresh_token)
            ((rotate_tokens ((create_token_pair u r t0 jA jR).refresh_token) st now jA2 jR2).2)
            now2 jA3 jR3
          = (none,
             (rotate_tokens ((create_token_pair u r t0 jA jR).refresh_token) st now jA2 jR2).2))
    ∧ (jR2 ≠ jR →
        (create_token_pair u r now jA2 jR2).refresh_token
          ≠ (create_token_pair u r t0 jA jR).refresh_token) := by
  have hrot := rotate_tokens_success ((create_token_pair u r t0 jA jR).refresh_token)
    st now jA2 jR2 u r rfl hexp hfresh rfl rfl hu hr
  refine ⟨by rw [hrot], ?_, ?_⟩
  · intro now2 jA3 jR3
    rw [hrot]
    have hmem : (create_token_pair u r t0 jA jR).refresh_token
        ∈ (st.revoked.insert ((create_token_pair u r t0 jA jR).refresh_token)) :=
      List.mem_insert_self _ _
    simp [rotate_tokens,
      verify_token_revoked ((create_token_pair u r t0 jA jR).refresh_token) true
        ⟨st.revoked.insert ((create_token_pair u r t0 jA jR).refresh_token)⟩ now2 hmem]
  · intro hj heq
    exact hj (congrArg Token.jti heq)

/-- C5 witness: a concrete fresh pair rotates successfully. -/
theorem rotate_refresh_one_time_use_witness :
    (rotate_tokens ((create_token_pair "alice" "gp" 0 "a1" "r1").refresh_token)
        AuthState.init 0 "a2" "r2").1 = some (create_token_pair "alice" "gp" 0 "a2" "r2") :=
  (rotate_refresh_one_time_use "alice" "gp" (by decide) (by decide) AuthState.init 0 0
      "a1" "r1" "a2" "r2" (by decide) (by decide)).1

/-- C6: after a successful revocation, verification of the same
credential fails under either kind, even at a time before its expiry. -/
theorem revoked_unexpired_fails_verification (t : Token) (st : AuthState) (now now2 : ℤ)
    (k : Bool) (hrev : (revoke_token t st now).1 = true) (hexp : now2 < t.exp) :
    verify_token t k (revoke_token t st now).2 now2 = none := by
  have hmem : t ∈ ((revoke_token t st now).2).revoked := by
    unfold revoke_token at hrev ⊢
    cases hv1 : verify_token t false st now with
    | some p => simp [hv1, List.mem_insert_self]
    | none =>
        cases hv2 : verify_token t true st now with
        | some p => simp [hv1, hv2, List.mem_insert_self]
        | none => simp [hv1, hv2] at hrev
  exact verify_token_revoked t k _ now2 hmem

/-- C6 witness. -/
theorem revoked_unexpired_fails_verification_witness :
    verify_token tA false (revoke_token tA AuthState.init 0).2 0 = none :=
  revoked_unexpired_fails_verification tA AuthState.init 0 0 false (by decide) (by decide)

/-- C7: the façade delegates to the backend check; when the result is a
denial, a positive block duration is configured and the key is not
already blocked, it installs a block and answers
`(false, 0, block_duration)`; in every other case the backend triple is
returned unchanged. -/
theorem check_rate_limit_escalation (st : MemState) (key : String) (m w bd now : ℤ) :
    ((MemoryBackend.check st key m w now).1.1 = false → 0 < bd →
      (MemoryBackend.is_blocked (MemoryBackend.check st key m w now).2 key now).1.1 = false →
      RateLimiter.check_rate_limit st key m w bd now
        = ((false, 0, bd),
           MemoryBackend.block
             (MemoryBackend.is_blocked (MemoryBackend.check st key m w now).2 key now).2
             key bd now))
    ∧ (((MemoryBackend.check st key m w now).1.1 = true ∨ bd ≤ 0
        ∨ (MemoryBackend.is_blocked (MemoryBackend.check st key m w now).2 key now).1.1 = true) →
      (RateLimiter.check_rate_limit st key m w bd now).1
        = (MemoryBackend.check st key m w now).1) := by
  constructor
  · intro hden hbd hnb
    simp [RateLimiter.check_rate_limit, hden, hbd, hnb]
  · rintro (hall | hbd | hblk)
    · simp [RateLimiter.check_rate_limit, hall]
    · have : ¬ (0 < bd) := by omega
      simp [RateLimiter.check_rate_limit, this]
    · by_cases hden : (MemoryBackend.check st key m w now).1.1 = false
      · by_cases hbd : 0 < bd
        · simp [RateLimiter.check_rate_limit, hden, hbd, hblk]
        · simp [RateLimiter.check_rate_limit, hbd]
      · simp at hden
        simp [RateLimiter.check_rate_limit, hden]

/-- C7 witness: exhausting a 1-request quota with a configured block
leads to the overridden answer `(false, 0, 300)`. -/
theorem check_rate_limit_escalation_witness :
    RateLimiter.check_rate_limit stBoundary "a" 0 60 300 30
      = ((false, 0, 300),
         MemoryBackend.block
           (MemoryBackend.is_blocked (MemoryBackend.check stBoundary "a" 0 60 30).2 "a" 30).2
           "a" 300 30) :=
  (check_rate_limit_escalation stBoundary "a" 0 60 300 30).1 (by decide) (by decide) (by decide)

/-- C8: with `max_requests = 5`, `window_seconds = 60`, five consecutive
checks on a fresh key admit with remaining 4, 3, 2, 1, 0 and the sixth
call is denied. -/
theorem five_calls_then_deny :
    checkSeq "a" 5 60 MemState.init [0, 1, 2, 3, 4, 5]
      = [(true, 4, 0), (true, 3, 0), (true, 2, 0), (true, 1, 0), (true, 0, 0),
         (false, 0, 60)] := by decide

/-- C9: any sequence of check and block operations addressed to key `k1`
leaves the decision of a check on any other key `k2` unchanged — the
window and block state of distinct keys are independent. -/
theorem key_independence (k1 k2 : String) (h : k1 ≠ k2) (ops : List RLOp) (st : MemState)
    (m w t : ℤ) :
    (MemoryBackend.check (ops.foldl (applyOp k1) st) k2 m w t).1
      = (MemoryBackend.check st k2 m w t).1 := by
  have hf := foldl_applyOp_frame k1 k2 (fun hh => h hh.symm) ops st
  exact check_fst_congr _ _ _ _ _ _ hf.1 hf.2

/-- C9 witness: exhausting and blocking key `"a"` does not change the
fresh answer on key `"b"`. -/
theorem key_independence_witness :
    (MemoryBackend.check
        ([RLOp.check 1 60 0, RLOp.check 1 60 0, RLOp.block 300 0].foldl (applyOp "a")
          MemState.init) "b" 5 60 0).1
      = (MemoryBackend.check MemState.init "b" 5 60 0).1 :=
  key_independence "a" "b" (by decide) [RLOp.check 1 60 0, RLOp.check 1 60 0, RLOp.block 300 0]
    MemState.init 5 60 0

/-- C10: whenever rotation fails (returns no pair), the revocation set
is left unchanged — rotation failure has no side effect. -/
theorem rotate_failure_no_side_effect (rt : Token) (st : AuthState) (now : ℤ) (jA jR : String)
    (h : (rotate_tokens rt st now jA jR).1 = none) :
    (rotate_tokens rt st now jA jR).2 = st := by
  unfold rotate_tokens at h ⊢
  cases hv : verify_token rt true st now with
  | none => simp [hv]
  | some p =>
      simp only [hv] at h ⊢
      rcases hu : p.username with _ | u <;> rcases hr : p.role with _ | r <;>
        simp_all <;> split_ifs at h ⊢ <;> simp_all

/-- C10 witness: a rotation presented with an access credential fails
and changes nothing. -/
theorem rotate_failure_no_side_effect_witness :
    (rotate_tokens tA AuthState.init 0 "x" "y").2 = AuthState.init :=
  rotate_failure_no_side_effect tA AuthState.init 0 "x" "y" (by decide)

end MedAgent
